import Mathlib

/-!
Shallow embedding of `src/package/lib/compileFunctions.js` from the
serverless google-cloud-functions plugin.

The source is a single synchronous pass over an ordered list of function
declarations.  For each declaration it runs three validators (handler,
events, vpc connector name), builds a base resource template, overlays
merged fields (declaration value if JS-truthy, else provider default, else
built-in fallback), conditionally emits networking fields and a trigger,
and pushes the finished template onto a caller-owned resources array.  A
validator failure throws, aborting the rest of the batch; templates pushed
for earlier declarations stay in the array.

Modelling choices:
  * JavaScript falsiness of the optional fields is modelled on
    `Option String` (absent, or present-but-empty, is falsy) and
    `Option Nat` (absent, or present-but-zero, is falsy).
  * A JS object key that may be absent is an `Option` field of the
    template structure; `none` means the key is absent.
  * `throw new Error(msg)` is modelled by an error value carrying the
    function name; `CompileError.message` renders the exact source text.
  * `path.sep` is modelled as `'/'` (the POSIX separator).
  * The events validator (`validateEventsProperty` from
    `../../shared/validate`) and the provider collaborators
    (`this.provider.getRuntime`, `this.provider.getConfiguredEnvironment`)
    live outside this source file; they are modelled from the spec, see
    their doc comments.
-/

namespace GCF

/-- JS truthiness filter for an optional string field: `none` if the field
is absent or the empty string (both falsy in JS), otherwise the value. -/
def truthyStr : Option String → Option String
  | some s => if s = "" then none else some s
  | none => none

/-- JS truthiness filter for an optional numeric field: `none` if the field
is absent or `0` (both falsy in JS), otherwise the value. -/
def truthyNat : Option Nat → Option Nat
  | some n => if n = 0 then none else some n
  | none => none

/-- Lowercase an ASCII code point, as a `Nat` (used for the
case-insensitive `/i` regex flag without going through `Char.ofNat`). -/
def lowerNat (n : Nat) : Nat :=
  if 65 ≤ n ∧ n ≤ 90 then n + 32 else n

/-- Case-insensitive character comparison (ASCII, per the `/i` flag). -/
def charEqCI (a b : Char) : Bool :=
  lowerNat a.toNat == lowerNat b.toNat

/-- `isPrefixOfCI pat l` : `pat` is a case-insensitive prefix of `l`. -/
def isPrefixOfCI : List Char → List Char → Bool
  | [], _ => true
  | _ :: _, [] => false
  | p :: ps, c :: cs => charEqCI p c && isPrefixOfCI ps cs

/-- Search `l` for the first (case-insensitive) occurrence of `pat`;
return the remainder of `l` after that occurrence, or `none`. -/
def dropAfterCI (pat : List Char) : List Char → Option (List Char)
  | [] => if pat.isEmpty then some [] else none
  | c :: cs =>
    if isPrefixOfCI pat (c :: cs) then some ((c :: cs).drop pat.length)
    else dropAfterCI pat cs

/-- Embedding of
`/projects\/[\s\S]*\/locations\/[\s\S]*\/connectors\/[\s\S]*/i.test(s)`:
the regex is unanchored, so `.test` succeeds iff `s` contains (anywhere,
case-insensitively) `projects/`, then later `/locations/`, then later
`/connectors/`.  Greedy `[\s\S]*` with backtracking is equivalent to
taking the leftmost occurrence of each literal in turn. -/
def vpcPatternTest (s : String) : Bool :=
  match dropAfterCI "projects/".toList s.toList with
  | none => false
  | some r1 =>
    match dropAfterCI "/locations/".toList r1 with
    | none => false
    | some r2 => (dropAfterCI "/connectors/".toList r2).isSome

/-- The first (and only consulted) entry of a declaration's `events` list:
a single-key object whose key is `http`, `event`, or something else. -/
inductive FunctionEvent where
  | http (url : String)
  | event (eventType : String) (resource : String) (path : Option String)
  | other (key : String)
  deriving DecidableEq, Repr

/-- A function declaration (`funcObject` in the source): the fields of the
user-authored function entry that `compileFunctions` reads. -/
structure FuncObject where
  name : String
  handler : Option String
  events : List FunctionEvent
  serviceAccountEmail : Option String
  memorySize : Option Nat
  timeout : Option String
  labels : Option (List (String × String))
  vpc : Option String
  egress : Option String
  ingress : Option String
  maxInstances : Option Nat
  deriving DecidableEq, Repr

/-- `properties.httpsTrigger` of a compiled template. -/
structure HttpsTrigger where
  url : String
  deriving DecidableEq, Repr

/-- `properties.eventTrigger` of a compiled template; `path = none` means
the `path` key is absent. -/
structure EventTrigger where
  eventType : String
  resource : String
  path : Option String
  deriving DecidableEq, Repr

/-- The `properties` object of a compiled template.  `Option` fields model
keys that may be absent from the JS object (`none` = key absent). -/
structure FuncProperties where
  parent : String
  availableMemoryMb : Nat
  runtime : String
  timeout : String
  entryPoint : Option String
  function : String
  sourceArchiveUrl : String
  serviceAccountEmail : Option String
  environmentVariables : Option (List (String × String))
  vpcConnector : Option String
  vpcConnectorEgressSettings : Option String
  ingressSettings : Option String
  maxInstances : Option Nat
  labels : List (String × String)
  httpsTrigger : Option HttpsTrigger
  eventTrigger : Option EventTrigger
  deriving DecidableEq, Repr

/-- A compiled resource template (`funcTemplate` in the source). -/
structure FuncTemplate where
  type : String
  name : String
  properties : FuncProperties
  deriving DecidableEq, Repr

/-- The parts of `this` (serverless service / provider objects) that
`compileFunctions` reads.  `getRuntime` and `getConfiguredEnvironment` are
provider collaborators outside this source file, modelled from the spec as
abstract resolver functions (spec §6: `resolveRuntime(decl) -> string`,
`resolveEnvironment(decl) -> mapping`). -/
structure Ctx where
  projectName : Option String
  region : Option String
  deploymentBucketName : Option String
  artifactDirectoryName : Option String
  artifact : String
  serviceAccountEmail : Option String
  memorySize : Option Nat
  timeout : Option String
  labels : Option (List (String × String))
  vpc : Option String
  egress : Option String
  ingress : Option String
  getRuntime : FuncObject → String
  getConfiguredEnvironment : FuncObject → List (String × String)

/-- The validation errors thrown by the compilation pass. -/
inductive CompileError where
  | missingHandler (functionName : String)
  | invalidEvents (functionName : String)
  | invalidVpcConnectorName (functionName : String)
  | invalidEgress (functionName : String)
  | invalidIngress (functionName : String)
  deriving DecidableEq, Repr

/-- The exact message strings of the source's `throw new Error(...)`. -/
def CompileError.message : CompileError → String
  | .missingHandler n =>
      "Missing \"handler\" property for function \"" ++ n ++ "\"." ++
      " Your function needs a \"handler\"." ++
      " Please check the docs for more info."
  | .invalidEvents n =>
      "Invalid \"events\" property for function \"" ++ n ++ "\"."
  | .invalidVpcConnectorName n =>
      "The function \"" ++ n ++ "\" has invalid vpc connection name" ++
      " VPC Connector name should follow projects/{project_id}/locations/{region}/connectors/{connector_name}" ++
      " Please check the docs for more info."
  | .invalidEgress n =>
      "The function \"" ++ n ++ "\" has an invalid egress setting" ++
      " Egress setting should be ALL_TRAFFIC, PRIVATE_RANGES_ONLY or VPC_CONNECTOR_EGRESS_SETTINGS_UNSPECIFIED" ++
      " Please check the docs for more info."
  | .invalidIngress n =>
      "The function \"" ++ n ++ "\" has an invalid ingress setting" ++
      " Ingress setting should be ALLOW_ALL, ALLOW_INTERNAL_ONLY, ALLOW_INTERNAL_AND_GCLB or INGRESS_SETTINGS_UNSPECIFIED" ++
      " Please check the docs for more info."

/-- `validateHandlerProperty`: throws iff `funcObject.handler` is falsy. -/
def validateHandlerProperty (funcObject : FuncObject) : Option CompileError :=
  if (truthyStr funcObject.handler).isSome then none
  else some (.missingHandler funcObject.name)

/-- Modelled from the spec: `validateEventsProperty` is imported from
`../../shared/validate`, which is not part of this source fragment.  Spec
§4 step 2: it "fails if the events list is empty or malformed"; with the
typed `FunctionEvent` model every present event is well-shaped, so the
model fails exactly on an empty events list. -/
def validateEventsProperty (funcObject : FuncObject) : Option CompileError :=
  if funcObject.events.isEmpty then some (.invalidEvents funcObject.name)
  else none

/-- `validateVpcConnectorProperty`: if `funcObject.vpc` is a truthy string
it must pass the connector-name regex test, else the validator throws.  A
falsy `vpc` (absent or empty string) is not checked. -/
def validateVpcConnectorProperty (funcObject : FuncObject) : Option CompileError :=
  match truthyStr funcObject.vpc with
  | some s =>
    if vpcPatternTest s then none
    else some (.invalidVpcConnectorName funcObject.name)
  | none => none

/-- The enumerated valid egress settings from `validateVpcEgressProperty`. -/
def egressValidTypes : List String :=
  ["VPC_CONNECTOR_EGRESS_SETTINGS_UNSPECIFIED", "PRIVATE_RANGES_ONLY", "ALL_TRAFFIC"]

/-- The enumerated valid ingress settings from `validateVpcIngressProperty`. -/
def ingressValidTypes : List String :=
  ["INGRESS_SETTINGS_UNSPECIFIED", "ALLOW_ALL", "ALLOW_INTERNAL_ONLY", "ALLOW_INTERNAL_AND_GCLB"]

/-- `validateVpcEgressProperty`: defined in the source but never invoked
by `compileFunctions`.  Throws iff `egress` is a truthy string outside
`egressValidTypes`. -/
def validateVpcEgressProperty (funcObject : FuncObject) : Option CompileError :=
  match truthyStr funcObject.egress with
  | some s =>
    if s ∈ egressValidTypes then none else some (.invalidEgress funcObject.name)
  | none => none

/-- `validateVpcIngressProperty`: defined in the source but never invoked
by `compileFunctions`.  Throws iff `ingress` is a truthy string outside
`ingressValidTypes`. -/
def validateVpcIngressProperty (funcObject : FuncObject) : Option CompileError :=
  match truthyStr funcObject.ingress with
  | some s =>
    if s ∈ ingressValidTypes then none else some (.invalidIngress funcObject.name)
  | none => none

/-- `artifactFilePath.split(path.sep).pop()` with `path.sep = '/'`. -/
def fileNameOf (artifactFilePath : String) : String :=
  ((artifactFilePath.splitOn "/").getLast?).getD ""

/-- `provider.region = provider.region || 'us-central1'` (run once before
the loop). -/
def effectiveRegion (ctx : Ctx) : String :=
  (truthyStr ctx.region).getD "us-central1"

/-- The `gs://${deploymentBucketName}/${artifactDirectoryName}/${fileName}`
source archive URL; an absent JS value is stringified as "undefined" by
the template literal. -/
def sourceArchiveUrlOf (ctx : Ctx) : String :=
  "gs://" ++ ctx.deploymentBucketName.getD "undefined" ++ "/" ++
    ctx.artifactDirectoryName.getD "undefined" ++ "/" ++ fileNameOf ctx.artifact

/-- `getFunctionTemplate`: the base template with fixed defaults before
the field overlay. -/
def getFunctionTemplate (funcObject : FuncObject) (projectName : Option String)
    (region : String) (sourceArchiveUrl : String) : FuncTemplate :=
  { type := "gcp-types/cloudfunctions-v1:projects.locations.functions"
    name := funcObject.name
    properties :=
      { parent := "projects/" ++ projectName.getD "undefined" ++ "/locations/" ++ region
        availableMemoryMb := 256
        runtime := "nodejs10"
        timeout := "60s"
        entryPoint := funcObject.handler
        function := funcObject.name
        sourceArchiveUrl := sourceArchiveUrl
        serviceAccountEmail := none
        environmentVariables := none
        vpcConnector := none
        vpcConnectorEgressSettings := none
        ingressSettings := none
        maxInstances := none
        labels := []
        httpsTrigger := none
        eventTrigger := none } }

/-- `_.assign({}, base, overlay)` on string-keyed maps: overlay entries
win on key collision (JS object key-insertion order is not modelled). -/
def assignPairs (base overlay : List (String × String)) : List (String × String) :=
  base.filter (fun kv => overlay.all (fun kv2 => kv2.1 ≠ kv.1)) ++ overlay

/-- The field overlay `compileFunctions` performs on the base template for
one declaration (the body of the `forEach` after the three validators):
  * `serviceAccountEmail = decl || provider || null`, key deleted if falsy;
  * `availableMemoryMb = decl.memorySize || provider.memorySize || 256`;
  * `runtime = this.provider.getRuntime(funcObject)`;
  * `timeout = decl.timeout || provider.timeout || '60s'`;
  * `environmentVariables = getConfiguredEnvironment(funcObject)`, key
    deleted if its size is 0;
  * `vpcConnector` assigned only under `if (funcObject.vpc)`; the value
    `funcObject.vpc || provider.vpc` then short-circuits to the truthy
    `funcObject.vpc` (likewise `egress`/`ingress`);
  * `maxInstances` assigned only if truthy;
  * `labels = _.assign({}, provider.labels || {}, funcObject.labels || {})`;
  * trigger from the key of `events[0]`: `http` sets `httpsTrigger.url`,
    `event` sets `eventTrigger` (with `path` only `if (path)` is truthy),
    any other key sets neither. -/
def compileFunctionTemplate (ctx : Ctx) (funcObject : FuncObject) : FuncTemplate :=
  let base := getFunctionTemplate funcObject ctx.projectName (effectiveRegion ctx)
    (sourceArchiveUrlOf ctx)
  let env := ctx.getConfiguredEnvironment funcObject
  { base with
    properties :=
      { base.properties with
        serviceAccountEmail :=
          match truthyStr funcObject.serviceAccountEmail with
          | some v => some v
          | none => truthyStr ctx.serviceAccountEmail
        availableMemoryMb :=
          (truthyNat funcObject.memorySize).getD ((truthyNat ctx.memorySize).getD 256)
        runtime := ctx.getRuntime funcObject
        timeout :=
          (truthyStr funcObject.timeout).getD ((truthyStr ctx.timeout).getD "60s")
        environmentVariables := if env.isEmpty then none else some env
        vpcConnector := truthyStr funcObject.vpc
        vpcConnectorEgressSettings := truthyStr funcObject.egress
        ingressSettings := truthyStr funcObject.ingress
        maxInstances := truthyNat funcObject.maxInstances
        labels := assignPairs (ctx.labels.getD []) (funcObject.labels.getD [])
        httpsTrigger :=
          match funcObject.events.head? with
          | some (FunctionEvent.http url) => some { url := url }
          | _ => none
        eventTrigger :=
          match funcObject.events.head? with
          | some (FunctionEvent.event ty res p) =>
            some { eventType := ty, resource := res, path := truthyStr p }
          | _ => none } }

/-- One iteration of the `forEach`: the three validators in source order,
then the template construction and overlay.  A validator throw is an
`Except.error`. -/
def compileOne (ctx : Ctx) (funcObject : FuncObject) : Except CompileError FuncTemplate :=
  match validateHandlerProperty funcObject with
  | some e => .error e
  | none =>
    match validateEventsProperty funcObject with
    | some e => .error e
    | none =>
      match validateVpcConnectorProperty funcObject with
      | some e => .error e
      | none => .ok (compileFunctionTemplate ctx funcObject)

/-- `compileFunctions`: the full pass.  `resources` is the caller-owned
`compiledConfigurationTemplate.resources` array; each compiled template is
pushed onto it in input order.  A thrown validation error stops the pass;
the templates already pushed remain (second component reports the error,
`none` on success). -/
def compileFunctions (ctx : Ctx) (funcs : List FuncObject)
    (resources : List FuncTemplate) : List FuncTemplate × Option CompileError :=
  match funcs with
  | [] => (resources, none)
  | f :: rest =>
    match compileOne ctx f with
    | .error e => (resources, some e)
    | .ok t => compileFunctions ctx rest (resources ++ [t])

/-! Concrete inputs used by the witnesses and counterexamples. -/

/-- A concrete context: no provider-level optional settings. -/
def ctxW : Ctx :=
  { projectName := some "my-project"
    region := none
    deploymentBucketName := some "sls-bucket"
    artifactDirectoryName := some "serverless/dev"
    artifact := "/tmp/my-service.zip"
    serviceAccountEmail := none
    memorySize := none
    timeout := none
    labels := none
    vpc := none
    egress := none
    ingress := none
    getRuntime := fun _ => "nodejs10"
    getConfiguredEnvironment := fun _ => [] }

/-- A concrete valid declaration with an `http` first event. -/
def fBase : FuncObject :=
  { name := "fn"
    handler := some "index.handler"
    events := [FunctionEvent.http "https://example.com"]
    serviceAccountEmail := none
    memorySize := none
    timeout := none
    labels := none
    vpc := none
    egress := none
    ingress := none
    maxInstances := none }

/-- A concrete context with every provider-level default set. -/
def ctxProv : Ctx :=
  { ctxW with
    vpc := some "projects/pp/locations/rr/connectors/cc"
    egress := some "ALL_TRAFFIC"
    ingress := some "ALLOW_ALL"
    serviceAccountEmail := some "sa@example.com"
    memorySize := some 128
    timeout := some "30s" }

/-- A valid declaration whose first event has the key `schedule`, which is
neither `http` nor `event`. -/
def fOther : FuncObject := { fBase with name := "cron", events := [FunctionEvent.other "schedule"] }

/-- A declaration with no `handler`. -/
def fBad : FuncObject := { fBase with name := "broken", handler := none }

/-- A valid declaration placed after the broken one. -/
def fLater : FuncObject := { fBase with name := "later" }

/-- A declaration whose `vpc` is the empty string. -/
def fVpcEmpty : FuncObject := { fBase with name := "vempty", vpc := some "" }

/-- A declaration whose `vpc` is a non-conforming non-empty string. -/
def fVpcBad : FuncObject := { fBase with name := "vbad", vpc := some "my-connector" }

/-- A declaration whose `vpc` is a conforming connector name. -/
def fVpcGood : FuncObject :=
  { fBase with name := "vgood", vpc := some "projects/p/locations/r/connectors/c" }

/-- A declaration with egress and ingress values outside the enumerated
valid-value lists. -/
def fNet : FuncObject :=
  { fBase with name := "net", egress := some "SOME_INVALID_VALUE", ingress := some "ALSO_INVALID" }

/-- A declaration with `memorySize: 512`. -/
def fMem : FuncObject := { fBase with name := "mem", memorySize := some 512 }

/-- A valid declaration with an `event` first event and no `path`. -/
def fEvent : FuncObject :=
  { fBase with
    name := "evt"
    events := [FunctionEvent.event "google.storage.object.finalize" "my-bucket" none] }

/-- A declaration whose first event carries `path: ""` (present, falsy). -/
def fPathEmpty : FuncObject :=
  { fBase with
    name := "pathempty"
    events := [FunctionEvent.event "google.storage.object.finalize" "my-bucket" (some "")] }

/-- A declaration with present-but-falsy `memorySize` and `timeout`. -/
def fZero : FuncObject := { fBase with name := "zero", memorySize := some 0, timeout := some "" }

/-! Field-projection lemmas for the overlay, all definitional. -/

theorem cft_serviceAccountEmail (ctx : Ctx) (f : FuncObject) :
    (compileFunctionTemplate ctx f).properties.serviceAccountEmail =
      match truthyStr f.serviceAccountEmail with
      | some v => some v
      | none => truthyStr ctx.serviceAccountEmail := rfl

theorem cft_availableMemoryMb (ctx : Ctx) (f : FuncObject) :
    (compileFunctionTemplate ctx f).properties.availableMemoryMb =
      (truthyNat f.memorySize).getD ((truthyNat ctx.memorySize).getD 256) := rfl

theorem cft_timeout (ctx : Ctx) (f : FuncObject) :
    (compileFunctionTemplate ctx f).properties.timeout =
      (truthyStr f.timeout).getD ((truthyStr ctx.timeout).getD "60s") := rfl

theorem cft_environmentVariables (ctx : Ctx) (f : FuncObject) :
    (compileFunctionTemplate ctx f).properties.environmentVariables =
      (if (ctx.getConfiguredEnvironment f).isEmpty then none
       else some (ctx.getConfiguredEnvironment f)) := rfl

theorem cft_vpcConnector (ctx : Ctx) (f : FuncObject) :
    (compileFunctionTemplate ctx f).properties.vpcConnector = truthyStr f.vpc := rfl

theorem cft_vpcConnectorEgressSettings (ctx : Ctx) (f : FuncObject) :
    (compileFunctionTemplate ctx f).properties.vpcConnectorEgressSettings =
      truthyStr f.egress := rfl

theorem cft_ingressSettings (ctx : Ctx) (f : FuncObject) :
    (compileFunctionTemplate ctx f).properties.ingressSettings =
      truthyStr f.ingress := rfl

theorem cft_httpsTrigger (ctx : Ctx) (f : FuncObject) :
    (compileFunctionTemplate ctx f).properties.httpsTrigger =
      match f.events.head? with
      | some (FunctionEvent.http url) => some { url := url }
      | _ => none := rfl

theorem cft_eventTrigger (ctx : Ctx) (f : FuncObject) :
    (compileFunctionTemplate ctx f).properties.eventTrigger =
      match f.events.head? with
      | some (FunctionEvent.event ty res p) =>
        some { eventType := ty, resource := res, path := truthyStr p }
      | _ => none := rfl

/-- `compileOne` succeeds exactly when the three validators pass, and then
returns the overlaid template. -/
theorem compileOne_ok_iff {ctx : Ctx} {f : FuncObject} {t : FuncTemplate} :
    compileOne ctx f = Except.ok t ↔
      validateHandlerProperty f = none ∧ validateEventsProperty f = none ∧
        validateVpcConnectorProperty f = none ∧ t = compileFunctionTemplate ctx f := by
  unfold compileOne
  rcases h1 : validateHandlerProperty f with _ | e1 <;>
    rcases h2 : validateEventsProperty f with _ | e2 <;>
      rcases h3 : validateVpcConnectorProperty f with _ | e3 <;>
        simp [eq_comm]

/-- A falsy handler makes `compileOne` throw the missing-handler error. -/
theorem compileOne_missing_handler {ctx : Ctx} {f : FuncObject}
    (h : truthyStr f.handler = none) :
    compileOne ctx f = Except.error (CompileError.missingHandler f.name) := by
  unfold compileOne validateHandlerProperty
  rw [h]
  rfl

/-- When every declaration passes validation, the pass appends exactly the
overlaid templates, in order, to the caller's resources list. -/
theorem compileFunctions_all_ok (ctx : Ctx) (funcs : List FuncObject)
    (h : ∀ f ∈ funcs, ∃ t, compileOne ctx f = Except.ok t)
    (resources : List FuncTemplate) :
    compileFunctions ctx funcs resources =
      (resources ++ funcs.map (compileFunctionTemplate ctx), none) := by
  induction funcs generalizing resources with
  | nil => simp [compileFunctions]
  | cons f rest ih =>
    obtain ⟨t, ht⟩ := h f (List.mem_cons_self f rest)
    obtain ⟨-, -, -, rfl⟩ := compileOne_ok_iff.mp ht
    have step : compileFunctions ctx (f :: rest) resources =
        compileFunctions ctx rest (resources ++ [compileFunctionTemplate ctx f]) := by
      rw [compileFunctions, ht]
    rw [step, ih (fun g hg => h g (List.mem_cons_of_mem f hg))]
    simp

/-- When every declaration before `bad` passes validation and `bad` throws,
the pass stops at `bad`: the resources gain exactly the templates of the
earlier declarations and the reported error is `bad`'s. -/
theorem compileFunctions_stops (ctx : Ctx) (before after : List FuncObject)
    (bad : FuncObject) (e : CompileError)
    (h : ∀ f ∈ before, ∃ t, compileOne ctx f = Except.ok t)
    (hbad : compileOne ctx bad = Except.error e)
    (resources : List FuncTemplate) :
    compileFunctions ctx (before ++ bad :: after) resources =
      (resources ++ before.map (compileFunctionTemplate ctx), some e) := by
  induction before generalizing resources with
  | nil => simp [compileFunctions, hbad]
  | cons f rest ih =>
    obtain ⟨t, ht⟩ := h f (List.mem_cons_self f rest)
    obtain ⟨-, -, -, rfl⟩ := compileOne_ok_iff.mp ht
    have step : compileFunctions ctx ((f :: rest) ++ bad :: after) resources =
        compileFunctions ctx (rest ++ bad :: after)
          (resources ++ [compileFunctionTemplate ctx f]) := by
      rw [List.cons_append, compileFunctions, ht]
    rw [step, ih (fun g hg => h g (List.mem_cons_of_mem f hg))]
    simp

/-- A declaration that throws makes the singleton pass report its error
and leave the resources untouched. -/
theorem compileFunctions_singleton_error {ctx : Ctx} {f : FuncObject} {e : CompileError}
    (resources : List FuncTemplate) (h : compileOne ctx f = Except.error e) :
    compileFunctions ctx [f] resources = (resources, some e) := by
  simp [compileFunctions, h]

/-- A declaration that compiles makes the singleton pass append exactly
its template. -/
theorem compileFunctions_singleton_ok {ctx : Ctx} {f : FuncObject} {t : FuncTemplate}
    (resources : List FuncTemplate) (h : compileOne ctx f = Except.ok t) :
    compileFunctions ctx [f] resources = (resources ++ [t], none) := by
  simp [compileFunctions, h]

theorem truthyStr_some_of_ne {v : String} (h : v ≠ "") : truthyStr (some v) = some v := by
  simp [truthyStr, h]

theorem truthyStr_ne_empty {o : Option String} {s : String}
    (h : truthyStr o = some s) : s ≠ "" := by
  rcases o with _ | v
  · simp [truthyStr] at h
  · by_cases hv : v = ""
    · simp [truthyStr, hv] at h
    · simp [truthyStr, hv] at h
      exact h ▸ hv

theorem truthyNat_ne_zero {o : Option Nat} {n : Nat}
    (h : truthyNat o = some n) : n ≠ 0 := by
  rcases o with _ | v
  · simp [truthyNat] at h
  · by_cases hv : v = 0
    · simp [truthyNat, hv] at h
    · simp [truthyNat, hv] at h
      exact h ▸ hv


/-! Claim theorems. -/

/-- C1 counterexample: the declaration `fOther`, whose first event key is
`schedule` (neither `http` nor `event`), compiles successfully, yet its
template has NEITHER `httpsTrigger` nor `eventTrigger` — refuting
"exactly one of httpsTrigger / eventTrigger is present". -/
theorem c1_counterexample :
    compileOne ctxW fOther = Except.ok (compileFunctionTemplate ctxW fOther) ∧
    (compileFunctionTemplate ctxW fOther).properties.httpsTrigger = none ∧
    (compileFunctionTemplate ctxW fOther).properties.eventTrigger = none :=
  ⟨rfl, rfl, rfl⟩

/-- C1 (amended): for every successfully compiled declaration, AT MOST one
of `httpsTrigger` / `eventTrigger` is present, determined solely by the key
of the first event of the declaration: `httpsTrigger` is present iff that
key is `http`, `eventTrigger` iff it is `event`, and neither is present
when the key is anything else. -/
theorem c1_trigger_determination (ctx : Ctx) (f : FuncObject) (t : FuncTemplate)
    (h : compileOne ctx f = Except.ok t) :
    (t.properties.httpsTrigger.isSome ↔
      ∃ u, f.events.head? = some (FunctionEvent.http u)) ∧
    (t.properties.eventTrigger.isSome ↔
      ∃ ty r p, f.events.head? = some (FunctionEvent.event ty r p)) ∧
    ¬(t.properties.httpsTrigger.isSome ∧ t.properties.eventTrigger.isSome) := by
  obtain ⟨-, -, -, rfl⟩ := compileOne_ok_iff.mp h
  rw [cft_httpsTrigger, cft_eventTrigger]
  rcases hev : f.events.head? with _ | ev
  · simp
  · cases ev <;> simp

/-- C1 witness: the amended claim evaluated on the concrete `http` and
`event` declarations. -/
theorem c1_trigger_determination_witness :
    ((compileFunctionTemplate ctxW fBase).properties.httpsTrigger.isSome ∧
      (compileFunctionTemplate ctxW fBase).properties.eventTrigger.isSome = false) ∧
    ((compileFunctionTemplate ctxW fEvent).properties.eventTrigger.isSome ∧
      (compileFunctionTemplate ctxW fEvent).properties.httpsTrigger.isSome = false) := by
  have h1 := c1_trigger_determination ctxW fBase _ rfl
  have h2 := c1_trigger_determination ctxW fEvent _ rfl
  refine ⟨⟨h1.1.mpr ⟨"https://example.com", rfl⟩, by decide⟩,
    ⟨h2.2.1.mpr ⟨"google.storage.object.finalize", "my-bucket", none, rfl⟩, by decide⟩⟩

/-- C4: the three networking keys are present in the compiled template iff
the declaration's own field is truthy — a provider-level default alone
(the `ctx` here is universally quantified, so in particular one with all
provider networking fields set) never causes emission. -/
theorem c4_networking_gating (ctx : Ctx) (f : FuncObject) (t : FuncTemplate)
    (h : compileOne ctx f = Except.ok t) :
    (t.properties.vpcConnector.isSome ↔ (truthyStr f.vpc).isSome) ∧
    (t.properties.vpcConnectorEgressSettings.isSome ↔ (truthyStr f.egress).isSome) ∧
    (t.properties.ingressSettings.isSome ↔ (truthyStr f.ingress).isSome) := by
  obtain ⟨-, -, -, rfl⟩ := compileOne_ok_iff.mp h
  rw [cft_vpcConnector, cft_vpcConnectorEgressSettings, cft_ingressSettings]
  exact ⟨Iff.rfl, Iff.rfl, Iff.rfl⟩

/-- C4 witness: with every provider-level networking default set
(`ctxProv`) but none on the declaration (`fBase`), no networking key is
emitted. -/
theorem c4_networking_gating_witness :
    (compileFunctionTemplate ctxProv fBase).properties.vpcConnector.isSome = false ∧
    (compileFunctionTemplate ctxProv fBase).properties.vpcConnectorEgressSettings.isSome = false ∧
    (compileFunctionTemplate ctxProv fBase).properties.ingressSettings.isSome = false := by
  have h := c4_networking_gating ctxProv fBase _ rfl
  refine ⟨?_, ?_, ?_⟩
  · rw [Bool.eq_false_iff]
    intro hs
    exact absurd (h.1.mp (by simpa using hs)) (by decide)
  · rw [Bool.eq_false_iff]
    intro hs
    exact absurd (h.2.1.mp (by simpa using hs)) (by decide)
  · rw [Bool.eq_false_iff]
    intro hs
    exact absurd (h.2.2.mp (by simpa using hs)) (by decide)

/-- C6: `availableMemoryMb` follows the precedence declaration, then
provider, then 256: the two concrete cases of the claim, plus the general
precedence for set (truthy) values. -/
theorem c6_memory_precedence (ctx : Ctx) (f : FuncObject) (t : FuncTemplate)
    (h : compileOne ctx f = Except.ok t) :
    (f.memorySize = some 512 → ctx.memorySize = some 128 →
      t.properties.availableMemoryMb = 512) ∧
    (f.memorySize = none → ctx.memorySize = none →
      t.properties.availableMemoryMb = 256) ∧
    (∀ n, f.memorySize = some (n + 1) → t.properties.availableMemoryMb = n + 1) ∧
    (∀ m, f.memorySize = none → ctx.memorySize = some (m + 1) →
      t.properties.availableMemoryMb = m + 1) := by
  obtain ⟨-, -, -, rfl⟩ := compileOne_ok_iff.mp h
  refine ⟨?_, ?_, ?_, ?_⟩
  · intro h1 h2
    rw [cft_availableMemoryMb, h1, h2]
    rfl
  · intro h1 h2
    rw [cft_availableMemoryMb, h1, h2]
    rfl
  · intro n h1
    rw [cft_availableMemoryMb, h1]
    simp [truthyNat]
  · intro m h1 h2
    rw [cft_availableMemoryMb, h1, h2]
    simp [truthyNat]

/-- C6 witness: declaration `{memorySize: 512}` over provider
`{memorySize: 128}` yields 512; with neither set, 256. -/
theorem c6_memory_precedence_witness :
    (compileFunctionTemplate ctxProv fMem).properties.availableMemoryMb = 512 ∧
    (compileFunctionTemplate ctxW fBase).properties.availableMemoryMb = 256 :=
  ⟨(c6_memory_precedence ctxProv fMem _ rfl).1 rfl rfl,
   (c6_memory_precedence ctxW fBase _ rfl).2.1 rfl rfl⟩

/-- C7: `serviceAccountEmail` is present iff the `decl || provider` merge
is truthy, and never with an empty value; `environmentVariables` is
present iff the resolved environment is non-empty, and then holds exactly
that non-empty environment. -/
theorem c7_omission_rule (ctx : Ctx) (f : FuncObject) (t : FuncTemplate)
    (h : compileOne ctx f = Except.ok t) :
    (t.properties.serviceAccountEmail.isSome ↔
      ((truthyStr f.serviceAccountEmail).isSome ∨
        (truthyStr ctx.serviceAccountEmail).isSome)) ∧
    (∀ s, t.properties.serviceAccountEmail = some s → s ≠ "") ∧
    (t.properties.environmentVariables.isSome ↔
      ctx.getConfiguredEnvironment f ≠ []) ∧
    (∀ e, t.properties.environmentVariables = some e →
      e = ctx.getConfiguredEnvironment f ∧ e ≠ []) := by
  obtain ⟨-, -, -, rfl⟩ := compileOne_ok_iff.mp h
  refine ⟨?_, ?_, ?_, ?_⟩
  · rw [cft_serviceAccountEmail]
    rcases h1 : truthyStr f.serviceAccountEmail with _ | v <;> simp [h1]
  · intro s hs
    rw [cft_serviceAccountEmail] at hs
    rcases h1 : truthyStr f.serviceAccountEmail with _ | v
    · rw [h1] at hs
      exact truthyStr_ne_empty hs
    · rw [h1] at hs
      simp at hs
      exact hs ▸ truthyStr_ne_empty h1
  · rw [cft_environmentVariables]
    by_cases h1 : (ctx.getConfiguredEnvironment f).isEmpty = true
    · rw [if_pos h1]
      simp [List.isEmpty_iff.mp h1]
    · rw [if_neg h1]
      simp only [Option.isSome_some, true_iff]
      simpa [List.isEmpty_iff] using h1
  · intro e he
    rw [cft_environmentVariables] at he
    by_cases h1 : (ctx.getConfiguredEnvironment f).isEmpty = true
    · rw [if_pos h1] at he
      exact absurd he (by simp)
    · rw [if_neg h1] at he
      have henv : ctx.getConfiguredEnvironment f ≠ [] := by
        simpa [List.isEmpty_iff] using h1
      have he2 : ctx.getConfiguredEnvironment f = e := by
        simpa using he
      exact ⟨he2.symm, he2 ▸ henv⟩

/-- C7 witness: with neither declaration nor provider
`serviceAccountEmail`, and an empty resolved environment, both keys are
absent from the compiled template. -/
theorem c7_omission_rule_witness :
    (compileFunctionTemplate ctxW fBase).properties.serviceAccountEmail.isSome = false ∧
    (compileFunctionTemplate ctxW fBase).properties.environmentVariables.isSome = false := by
  have h := c7_omission_rule ctxW fBase _ rfl
  constructor
  · rw [Bool.eq_false_iff]
    intro hs
    rcases h.1.mp hs with h2 | h2 <;> exact absurd h2 (by decide)
  · rw [Bool.eq_false_iff]
    intro hs
    exact h.2.2.1.mp hs rfl

/-- C10: a present-but-falsy `memorySize` (0) or `timeout` ("") is treated
as absent: the output falls back to the truthy provider default, else the
built-in fallback (256 / "60s"), and is never the declared falsy value. -/
theorem c10_falsy_treated_absent (ctx : Ctx) (f : FuncObject) (t : FuncTemplate)
    (h : compileOne ctx f = Except.ok t) :
    (f.memorySize = some 0 →
      t.properties.availableMemoryMb = (truthyNat ctx.memorySize).getD 256) ∧
    (f.timeout = some "" →
      t.properties.timeout = (truthyStr ctx.timeout).getD "60s") ∧
    t.properties.availableMemoryMb ≠ 0 ∧
    t.properties.timeout ≠ "" := by
  obtain ⟨-, -, -, rfl⟩ := compileOne_ok_iff.mp h
  refine ⟨?_, ?_, ?_, ?_⟩
  · intro h1
    rw [cft_availableMemoryMb, h1]
    rfl
  · intro h1
    rw [cft_timeout, h1]
    rfl
  · rw [cft_availableMemoryMb]
    rcases h1 : truthyNat f.memorySize with _ | n
    · rcases h2 : truthyNat ctx.memorySize with _ | m
      · simp
      · simpa using truthyNat_ne_zero h2
    · simpa using truthyNat_ne_zero h1
  · rw [cft_timeout]
    rcases h1 : truthyStr f.timeout with _ | s
    · rcases h2 : truthyStr ctx.timeout with _ | s2
      · simp
      · simpa using truthyStr_ne_empty h2
    · simpa using truthyStr_ne_empty h1

/-- C10 witness: `fZero` declares `memorySize: 0` and `timeout: ""`; over
`ctxProv` (provider 128 / "30s") the output is 128 / "30s", never 0 / "". -/
theorem c10_falsy_treated_absent_witness :
    (compileFunctionTemplate ctxProv fZero).properties.availableMemoryMb = 128 ∧
    (compileFunctionTemplate ctxProv fZero).properties.timeout = "30s" :=
  ⟨(c10_falsy_treated_absent ctxProv fZero _ rfl).1 rfl,
   (c10_falsy_treated_absent ctxProv fZero _ rfl).2.1 rfl⟩

/-- C2: when the pass reaches a declaration whose `handler` is absent or
empty (every earlier declaration compiled), it fails with the
missing-handler error, and no template for that declaration or any later
one is appended — the resources gain exactly the earlier templates. -/
theorem c2_missing_handler (ctx : Ctx) (before after : List FuncObject)
    (bad : FuncObject) (resources : List FuncTemplate)
    (h : ∀ f ∈ before, ∃ t, compileOne ctx f = Except.ok t)
    (hbad : truthyStr bad.handler = none) :
    compileFunctions ctx (before ++ bad :: after) resources =
      (resources ++ before.map (compileFunctionTemplate ctx),
        some (CompileError.missingHandler bad.name)) :=
  compileFunctions_stops ctx before after bad _ h
    (compileOne_missing_handler hbad) resources

/-- C2 witness: `fBad` has no handler; the pass over
`[fBase, fBad, fLater]` reports the missing-handler error for `fBad` and
appends only `fBase`'s template. -/
theorem c2_missing_handler_witness :
    compileFunctions ctxW [fBase, fBad, fLater] [] =
      ([compileFunctionTemplate ctxW fBase],
        some (CompileError.missingHandler "broken")) := by
  have h := c2_missing_handler ctxW [fBase] [fLater] fBad []
    (fun f hf => by
      rw [List.mem_singleton] at hf
      subst hf
      exact ⟨_, rfl⟩) rfl
  simpa using h

/-- C3 counterexample: `fVpcEmpty.vpc` is the string `""`, which does not
match the connector-name pattern, yet compilation SUCCEEDS — the source
only validates a truthy (non-empty) `vpc` value. -/
theorem c3_counterexample :
    fVpcEmpty.vpc = some "" ∧
    vpcPatternTest "" = false ∧
    compileFunctions ctxW [fVpcEmpty] [] =
      ([compileFunctionTemplate ctxW fVpcEmpty], none) :=
  ⟨rfl, rfl, rfl⟩

/-- C3 (amended): for a declaration passing the handler and events checks,
a NON-EMPTY `vpc` string failing the source's (unanchored,
case-insensitive) connector-name test makes compilation fail with the
invalid-vpc-connector-name error; with
`vpc = "projects/p/locations/r/connectors/c"` compilation succeeds and
`vpcConnector` holds exactly that value. -/
theorem c3_vpc_validation (ctx : Ctx) (f : FuncObject) (resources : List FuncTemplate)
    (hh : validateHandlerProperty f = none) (he : validateEventsProperty f = none) :
    (∀ s, f.vpc = some s → s ≠ "" → vpcPatternTest s = false →
      compileFunctions ctx [f] resources =
        (resources, some (CompileError.invalidVpcConnectorName f.name))) ∧
    (f.vpc = some "projects/p/locations/r/connectors/c" →
      compileFunctions ctx [f] resources =
        (resources ++ [compileFunctionTemplate ctx f], none) ∧
      (compileFunctionTemplate ctx f).properties.vpcConnector =
        some "projects/p/locations/r/connectors/c") := by
  constructor
  · intro s hs hne hfail
    have hv : validateVpcConnectorProperty f =
        some (CompileError.invalidVpcConnectorName f.name) := by
      unfold validateVpcConnectorProperty
      simp [hs, truthyStr_some_of_ne hne, hfail]
    have hco : compileOne ctx f =
        Except.error (CompileError.invalidVpcConnectorName f.name) := by
      unfold compileOne
      rw [hh, he, hv]
    exact compileFunctions_singleton_error resources hco
  · intro hvpc
    have hv : validateVpcConnectorProperty f = none := by
      unfold validateVpcConnectorProperty
      rw [hvpc]
      rfl
    have hco : compileOne ctx f = Except.ok (compileFunctionTemplate ctx f) := by
      unfold compileOne
      rw [hh, he, hv]
    refine ⟨compileFunctions_singleton_ok resources hco, ?_⟩
    rw [cft_vpcConnector, hvpc]
    rfl

/-- C3 witness: `fVpcBad` (`vpc = "my-connector"`) fails with the
invalid-vpc-connector-name error and appends nothing; `fVpcGood`
compiles and emits the exact connector name. -/
theorem c3_vpc_validation_witness :
    compileFunctions ctxW [fVpcBad] [] =
      ([], some (CompileError.invalidVpcConnectorName "vbad")) ∧
    compileFunctions ctxW [fVpcGood] [] =
      ([compileFunctionTemplate ctxW fVpcGood], none) ∧
    (compileFunctionTemplate ctxW fVpcGood).properties.vpcConnector =
      some "projects/p/locations/r/connectors/c" := by
  have h1 := (c3_vpc_validation ctxW fVpcBad [] rfl rfl).1 "my-connector" rfl
    (by decide) (by decide)
  have h2 := (c3_vpc_validation ctxW fVpcGood [] rfl rfl).2 rfl
  exact ⟨h1, by simpa using h2.1, h2.2⟩

/-- C5: the egress/ingress validators are not wired into the compilation
path: a declaration whose egress/ingress the validators would reject
still compiles (given the three wired validators pass) and the invalid
value is emitted unchanged. -/
theorem c5_unwired_validators (ctx : Ctx) (f : FuncObject) (resources : List FuncTemplate)
    (hh : validateHandlerProperty f = none) (he : validateEventsProperty f = none)
    (hv : validateVpcConnectorProperty f = none) :
    compileFunctions ctx [f] resources =
      (resources ++ [compileFunctionTemplate ctx f], none) ∧
    (∀ s, f.egress = some s → s ≠ "" → s ∉ egressValidTypes →
      validateVpcEgressProperty f = some (CompileError.invalidEgress f.name) ∧
      (compileFunctionTemplate ctx f).properties.vpcConnectorEgressSettings = some s) ∧
    (∀ s, f.ingress = some s → s ≠ "" → s ∉ ingressValidTypes →
      validateVpcIngressProperty f = some (CompileError.invalidIngress f.name) ∧
      (compileFunctionTemplate ctx f).properties.ingressSettings = some s) := by
  have hco : compileOne ctx f = Except.ok (compileFunctionTemplate ctx f) := by
    unfold compileOne
    rw [hh, he, hv]
  refine ⟨compileFunctions_singleton_ok resources hco, ?_, ?_⟩
  · intro s hs hne hmem
    constructor
    · unfold validateVpcEgressProperty
      rw [hs, truthyStr_some_of_ne hne]
      simp [hmem]
    · rw [cft_vpcConnectorEgressSettings, hs, truthyStr_some_of_ne hne]
  · intro s hs hne hmem
    constructor
    · unfold validateVpcIngressProperty
      rw [hs, truthyStr_some_of_ne hne]
      simp [hmem]
    · rw [cft_ingressSettings, hs, truthyStr_some_of_ne hne]

/-- C5 witness: `fNet` carries egress `"SOME_INVALID_VALUE"` and ingress
`"ALSO_INVALID"`, both outside the enumerated lists; compilation succeeds
and both values are emitted unchanged, though either validator would have
rejected them. -/
theorem c5_unwired_validators_witness :
    compileFunctions ctxW [fNet] [] = ([compileFunctionTemplate ctxW fNet], none) ∧
    validateVpcEgressProperty fNet = some (CompileError.invalidEgress "net") ∧
    (compileFunctionTemplate ctxW fNet).properties.vpcConnectorEgressSettings =
      some "SOME_INVALID_VALUE" ∧
    validateVpcIngressProperty fNet = some (CompileError.invalidIngress "net") ∧
    (compileFunctionTemplate ctxW fNet).properties.ingressSettings =
      some "ALSO_INVALID" := by
  have h := c5_unwired_validators ctxW fNet [] rfl rfl rfl
  have he := h.2.1 "SOME_INVALID_VALUE" rfl (by decide) (by decide)
  have hi := h.2.2 "ALSO_INVALID" rfl (by decide) (by decide)
  exact ⟨by simpa using h.1, he.1, he.2, hi.1, hi.2⟩

/-- C8 counterexample: `fPathEmpty`'s first event carries `path: ""` —
the `path` key IS present in the input event — yet the compiled
`eventTrigger` has no `path` key (the source gates it on truthiness). -/
theorem c8_counterexample :
    fPathEmpty.events.head? =
      some (FunctionEvent.event "google.storage.object.finalize" "my-bucket" (some "")) ∧
    compileOne ctxW fPathEmpty = Except.ok (compileFunctionTemplate ctxW fPathEmpty) ∧
    (compileFunctionTemplate ctxW fPathEmpty).properties.eventTrigger =
      some { eventType := "google.storage.object.finalize"
             resource := "my-bucket"
             path := none } :=
  ⟨rfl, rfl, rfl⟩

/-- C8 (amended): a first event with key `http` and value `v` yields
`httpsTrigger.url = v` and no `eventTrigger`; a first event with key
`event` yields an `eventTrigger` with that event's `eventType` and
`resource`, a `path` key exactly when the input `path` is truthy
(present and non-empty), and no `httpsTrigger`. -/
theorem c8_trigger_mapping (ctx : Ctx) (f : FuncObject) (t : FuncTemplate)
    (h : compileOne ctx f = Except.ok t) :
    (∀ v, f.events.head? = some (FunctionEvent.http v) →
      t.properties.httpsTrigger = some { url := v } ∧
      t.properties.eventTrigger = none) ∧
    (∀ ty r p, f.events.head? = some (FunctionEvent.event ty r p) →
      t.properties.eventTrigger =
        some { eventType := ty, resource := r, path := truthyStr p } ∧
      t.properties.httpsTrigger = none) := by
  obtain ⟨-, -, -, rfl⟩ := compileOne_ok_iff.mp h
  constructor
  · intro v hv
    rw [cft_httpsTrigger, cft_eventTrigger, hv]
    exact ⟨rfl, rfl⟩
  · intro ty r p hp
    rw [cft_eventTrigger, cft_httpsTrigger, hp]
    exact ⟨rfl, rfl⟩

/-- C8 witness: the claimed trigger mapping evaluated on the concrete
`http` declaration and the concrete pathless `event` declaration. -/
theorem c8_trigger_mapping_witness :
    (compileFunctionTemplate ctxW fBase).properties.httpsTrigger =
      some { url := "https://example.com" } ∧
    (compileFunctionTemplate ctxW fBase).properties.eventTrigger = none ∧
    (compileFunctionTemplate ctxW fEvent).properties.eventTrigger =
      some { eventType := "google.storage.object.finalize"
             resource := "my-bucket"
             path := none } ∧
    (compileFunctionTemplate ctxW fEvent).properties.httpsTrigger = none := by
  have h1 := (c8_trigger_mapping ctxW fBase _ rfl).1 "https://example.com" rfl
  have h2 := (c8_trigger_mapping ctxW fEvent _ rfl).2
    "google.storage.object.finalize" "my-bucket" none rfl
  exact ⟨h1.1, h1.2, h2.1, h2.2⟩

/-- C9: for N valid declarations, exactly N templates are appended, in
input order, to the caller's pre-existing resources sequence; the prior
entries are preserved as a prefix and the entry at offset i is derived
from declaration i. -/
theorem c9_append_order (ctx : Ctx) (funcs : List FuncObject)
    (resources : List FuncTemplate)
    (h : ∀ f ∈ funcs, ∃ t, compileOne ctx f = Except.ok t) :
    (compileFunctions ctx funcs resources).2 = none ∧
    (compileFunctions ctx funcs resources).1 =
      resources ++ funcs.map (compileFunctionTemplate ctx) ∧
    (compileFunctions ctx funcs resources).1.length =
      resources.length + funcs.length ∧
    (compileFunctions ctx funcs resources).1.take resources.length = resources ∧
    (∀ i, (hi : i < funcs.length) →
      (compileFunctions ctx funcs resources).1[resources.length + i]? =
        some (compileFunctionTemplate ctx funcs[i])) := by
  have key := compileFunctions_all_ok ctx funcs h resources
  rw [key]
  refine ⟨rfl, rfl, by simp, by simp, ?_⟩
  intro i hi
  rw [List.getElem?_append_right (by omega)]
  simp [hi]

/-- C9 witness: two valid declarations compile to exactly their two
templates, in order, appended to an empty resources list. -/
theorem c9_append_order_witness :
    (compileFunctions ctxW [fBase, fEvent] []).2 = none ∧
    (compileFunctions ctxW [fBase, fEvent] []).1 =
      [compileFunctionTemplate ctxW fBase, compileFunctionTemplate ctxW fEvent] := by
  have h := c9_append_order ctxW [fBase, fEvent] []
    (fun f hf => by
      rcases List.mem_cons.mp hf with h1 | h1
      · subst h1
        exact ⟨_, rfl⟩
      · rw [List.mem_singleton] at h1
        subst h1
        exact ⟨_, rfl⟩)
  exact ⟨h.1, by simpa using h.2.1⟩

end GCF
